import Mathlib

/-!
Verification of the collaboration session engine of
src/Plasmo/real-time-collaboration.ts (class CollaborationManager).

The TypeScript state and methods are shallowly embedded as Lean
definitions: JS numbers holding text positions become Int (the source
can drive them negative), wall-clock timestamps become Nat, the
JS Map becomes an insertion-ordered association list with Map.set
semantics, and observable side effects (emitted bus events, scheduled
timers) are returned explicitly.
-/

/-- Edit kinds of the CollaborationEdit interface (source lines 39-47). -/
inductive EditType
  | insert
  | delete
  | replace
deriving DecidableEq, Repr

/-- CollaborationEdit (source lines 39-47). `position` is an Int because the
source never validates it and arithmetic in transformEdit can make it
negative; `length` is optional exactly as in the source, and every read
site applies the source idiom `edit.length || 0`, embedded as `getD 0`. -/
structure CollaborationEdit where
  id : String
  type : EditType
  position : Int
  content : String
  length : Option Int
  userId : String
  timestamp : Nat
deriving DecidableEq, Repr

/-- transformEdit (source lines 318-348): if the incoming edit has a
timestamp not after the other edit, it is returned unchanged; otherwise
its position is shifted according to the kind of the earlier edit.
The delete branch subtracts `againstEdit.length || 0` with no clamp. -/
def transformEdit (edit againstEdit : CollaborationEdit) : CollaborationEdit :=
  if edit.timestamp ≤ againstEdit.timestamp then
    edit
  else
    match againstEdit.type with
    | .insert =>
      if edit.position ≥ againstEdit.position then
        { edit with position := edit.position + (againstEdit.content.length : Int) }
      else edit
    | .delete =>
      if edit.position > againstEdit.position then
        { edit with position := edit.position - (againstEdit.length.getD 0) }
      else edit
    | .replace =>
      if edit.position > againstEdit.position then
        { edit with position :=
            edit.position + ((againstEdit.content.length : Int) - (againstEdit.length.getD 0)) }
      else edit

/-- Modelled from the spec: the source file has no `currentText` or edit
application function (edits are only logged), so applying an edit to a
text follows the data model of spec section 3 and the edit-kind
descriptions of section 4.5: `insert` splices `content` at `position`,
`delete` removes `length` characters at `position`, `replace` removes
`length` characters and splices `content` at `position`. Positions are
meaningful for non-negative values, per the spec. -/
def applyEdit (text : String) (e : CollaborationEdit) : String :=
  let p := e.position.toNat
  match e.type with
  | .insert => text.take p ++ e.content ++ text.drop p
  | .delete => text.take p ++ text.drop (p + (e.length.getD 0).toNat)
  | .replace => text.take p ++ e.content ++ text.drop (p + (e.length.getD 0).toNat)

/-- Claim C9: if the incoming edit has a timestamp less than or equal to the
timestamp of the edit it is transformed against, transformEdit returns it
unchanged; consequently two edits with equal timestamps are never shifted
against each other, in either direction. -/
theorem transformEdit_le_timestamp_id (e o : CollaborationEdit) :
    (e.timestamp ≤ o.timestamp → transformEdit e o = e) ∧
    (e.timestamp = o.timestamp → transformEdit e o = e ∧ transformEdit o e = o) := by
  constructor
  · intro h
    simp [transformEdit, h]
  · intro h
    constructor
    · simp [transformEdit, h.le]
    · simp [transformEdit, h.ge]

/-- Witness for C9: two concrete edits with equal timestamps are both
returned unchanged by transformEdit. -/
theorem transformEdit_le_timestamp_id_witness :
    (⟨"a", .insert, 1, "X", none, "u1", 7⟩ : CollaborationEdit).timestamp =
      (⟨"b", .delete, 0, "", some 2, "u2", 7⟩ : CollaborationEdit).timestamp ∧
    transformEdit ⟨"a", .insert, 1, "X", none, "u1", 7⟩ ⟨"b", .delete, 0, "", some 2, "u2", 7⟩ =
      ⟨"a", .insert, 1, "X", none, "u1", 7⟩ ∧
    transformEdit ⟨"b", .delete, 0, "", some 2, "u2", 7⟩ ⟨"a", .insert, 1, "X", none, "u1", 7⟩ =
      ⟨"b", .delete, 0, "", some 2, "u2", 7⟩ := by
  refine ⟨rfl, ?_⟩
  exact (transformEdit_le_timestamp_id
    ⟨"a", .insert, 1, "X", none, "u1", 7⟩ ⟨"b", .delete, 0, "", some 2, "u2", 7⟩).2 rfl

/-- The concurrent-edit example of the convergence claim: an insert of "X"
at position 1 by user u1, with a chosen timestamp. -/
def insertX (ts : Nat) : CollaborationEdit := ⟨"a", .insert, 1, "X", none, "u1", ts⟩

/-- The concurrent-edit example of the convergence claim: a delete of one
character at position 2 by user u2, with a chosen timestamp. -/
def deleteC (ts : Nat) : CollaborationEdit := ⟨"b", .delete, 2, "", some 1, "u2", ts⟩

/-- Claim C1, counterexample: the two concurrent example edits on "ABCD" do
not converge when the insert carries the later timestamp (timestamps 2 and
1): the replica that applies the insert first ends at "AXCD" while the
other ends at "AXBD", so the two orders do not both yield "AXBD". -/
theorem convergence_counterexample :
    applyEdit (applyEdit "ABCD" (insertX 2)) (transformEdit (deleteC 1) (insertX 2)) = "AXCD" ∧
    applyEdit (applyEdit "ABCD" (deleteC 1)) (transformEdit (insertX 2) (deleteC 1)) = "AXBD" ∧
    ("AXCD" : String) ≠ "AXBD" :=
  ⟨rfl, rfl, by decide⟩

set_option maxHeartbeats 1000000 in
/-- Claim C1, amended: when the insert of "X" at position 1 carries a
strictly earlier timestamp than the delete at position 2, applying the
insert then the transformed delete, and applying the delete then the
transformed insert, both turn "ABCD" into "AXBD". -/
theorem convergence_example_of_ts_lt (tsA tsB : Nat) (h : tsA < tsB) :
    applyEdit (applyEdit "ABCD" (insertX tsA)) (transformEdit (deleteC tsB) (insertX tsA))
      = "AXBD" ∧
    applyEdit (applyEdit "ABCD" (deleteC tsB)) (transformEdit (insertX tsA) (deleteC tsB))
      = "AXBD" := by
  have e1 : transformEdit (deleteC tsB) (insertX tsA)
      = ⟨"b", .delete, 3, "", some 1, "u2", tsB⟩ := by
    simp [transformEdit, insertX, deleteC, Nat.not_le.mpr h]
    decide
  have e2 : transformEdit (insertX tsA) (deleteC tsB) = insertX tsA := by
    simp [transformEdit, insertX, deleteC, Nat.le_of_lt h]
  rw [e1, e2]
  have a1 : applyEdit "ABCD" (insertX tsA) = "AXBCD" := rfl
  have a2 : applyEdit "ABCD" (deleteC tsB) = "ABD" := rfl
  rw [a1, a2]
  have a3 : applyEdit "AXBCD" ⟨"b", .delete, 3, "", some 1, "u2", tsB⟩ = "AXBD" := rfl
  have a4 : applyEdit "ABD" (insertX tsA) = "AXBD" := rfl
  exact ⟨a3, a4⟩

/-- Witness for the amended C1 at timestamps 1 and 2. -/
theorem convergence_example_of_ts_lt_witness :
    (1 : Nat) < 2 ∧
    (applyEdit (applyEdit "ABCD" (insertX 1)) (transformEdit (deleteC 2) (insertX 1))
        = "AXBD" ∧
     applyEdit (applyEdit "ABCD" (deleteC 2)) (transformEdit (insertX 1) (deleteC 2))
        = "AXBD") :=
  ⟨by decide, convergence_example_of_ts_lt 1 2 (by decide)⟩

/-- An already-applied delete at position 1 of length 3, timestamp 1. -/
def oDel : CollaborationEdit := ⟨"o", .delete, 1, "", some 3, "u1", 1⟩

/-- A later insert at position 2, timestamp 2, transformed against oDel. -/
def eIns : CollaborationEdit := ⟨"e", .insert, 2, "Z", none, "u2", 2⟩

/-- Claim C3, counterexample: transforming eIns (position 2, later
timestamp) against the delete oDel at position 1 of length 3 yields
position -1, which lies below the delete position 1: the source applies
no clamp, refuting the clamped-shift claim. -/
theorem transformEdit_delete_no_clamp_counterexample :
    oDel.type = .delete ∧ oDel.timestamp < eIns.timestamp ∧
    oDel.position < eIns.position ∧
    (transformEdit eIns oDel).position = -1 ∧
    ¬ oDel.position ≤ (transformEdit eIns oDel).position := by
  decide

/-- Claim C3, amended: transforming a later edit e against an
earlier-applied delete o shifts the position of e by exactly the delete
length (with no clamp, so the result can fall below the delete position
and even below zero) whenever the position of e is strictly greater than
the position of o, and returns e unchanged whenever the position of e is
less than or equal to the position of o. -/
theorem transformEdit_delete_shift (e o : CollaborationEdit)
    (hd : o.type = .delete) (ht : o.timestamp < e.timestamp) :
    (o.position < e.position →
      transformEdit e o = { e with position := e.position - o.length.getD 0 }) ∧
    (e.position ≤ o.position → transformEdit e o = e) := by
  constructor
  · intro hp
    simp [transformEdit, hd, Nat.not_le.mpr ht, hp]
  · intro hp
    simp [transformEdit, hd, Nat.not_le.mpr ht, not_lt.mpr hp]

/-- Witness for the amended C3 at oDel and eIns. -/
theorem transformEdit_delete_shift_witness :
    oDel.type = .delete ∧ oDel.timestamp < eIns.timestamp ∧
    ((oDel.position < eIns.position →
        transformEdit eIns oDel = { eIns with position := eIns.position - oDel.length.getD 0 }) ∧
     (eIns.position ≤ oDel.position → transformEdit eIns oDel = eIns)) :=
  ⟨rfl, by decide, transformEdit_delete_shift eIns oDel rfl (by decide)⟩

/-- The edit branch of handleMessage (source lines 531-540): the incoming
edit is folded through transformEdit against every edit already in the
log (JS reduce with the incoming edit as the initial accumulator), and
the result is appended to the log and returned (the source also emits it
as an edit event). -/
def handleEditMessage (edits : List CollaborationEdit) (incoming : CollaborationEdit) :
    List CollaborationEdit × CollaborationEdit :=
  let transformedEdit := edits.foldl (fun e existingEdit => transformEdit e existingEdit) incoming
  (edits ++ [transformedEdit], transformedEdit)

/-- An edit already in the local log: insert "XY" at position 0 by u1 at
timestamp 5. In the C2 scenario the author of the later edit has already
observed and incorporated this edit. -/
def oObserved : CollaborationEdit := ⟨"o1", .insert, 0, "XY", none, "u1", 5⟩

/-- An incoming edit by u2 at position 3, timestamp 10, created after its
author observed oObserved. -/
def eLater : CollaborationEdit := ⟨"e1", .insert, 3, "Z", none, "u2", 10⟩

/-- Claim C2: the code keeps no record of which logged edits the author of
an incoming edit had observed; the edit branch of handleMessage folds the
incoming edit through transformEdit against every logged edit with an
earlier timestamp. At the failing input — log [oObserved], incoming
eLater whose author had already observed oObserved — the code shifts the
position of eLater from 3 to 5 before appending, although the claim says
an edit is never re-transformed against edits its author observed. -/
theorem handleEditMessage_retransforms_observed :
    eLater.position = 3 ∧
    (handleEditMessage [oObserved] eLater).2.position = 5 ∧
    (handleEditMessage [oObserved] eLater).1
      = [oObserved, { eLater with position := 5 }] := by
  decide

/-- Cursor coordinates of a user (source line 9). -/
structure Cursor where
  x : Int
  y : Int
deriving DecidableEq, Repr

/-- Selection range of a user (source line 10). -/
structure Selection where
  start : Int
  «end» : Int
deriving DecidableEq, Repr

/-- User status (source line 12). -/
inductive UserStatus
  | online
  | away
  | offline
deriving DecidableEq, Repr

/-- CollaborationUser (source lines 3-13). -/
structure CollaborationUser where
  id : String
  name : String
  email : String
  avatar : Option String
  color : String
  cursor : Option Cursor
  selection : Option Selection
  lastSeen : Nat
  status : UserStatus
deriving DecidableEq, Repr

/-- Room permissions (source lines 22-26). -/
structure RoomPermissions where
  canEdit : List String
  canView : List String
  isPublic : Bool
deriving DecidableEq, Repr

/-- CollaborationRoom (source lines 15-27). -/
structure CollaborationRoom where
  id : String
  name : String
  description : Option String
  users : List CollaborationUser
  createdAt : Nat
  updatedAt : Nat
  permissions : RoomPermissions
deriving DecidableEq, Repr

/-- The users field of CollaborationManager (source line 61) is a JS Map
from user id to user, embedded as an insertion-ordered association
list. -/
abbrev UserMap := List (String × CollaborationUser)

/-- JS Map.set semantics: overwrite in place when the key is present
(keeping its position), append otherwise. -/
def mapSet (m : UserMap) (k : String) (v : CollaborationUser) : UserMap :=
  if m.any (fun p => p.1 == k) then
    m.map (fun p => if p.1 == k then (k, v) else p)
  else m ++ [(k, v)]

/-- Events published on the internal event bus via emit, as far as the
claims need them. -/
inductive BusEvent
  | room_joined (room : CollaborationRoom)
  | cursor_update (userId : String) (cursor : Cursor)
  | selection_update (userId : String) (selection : Selection)
  | edit (e : CollaborationEdit)
deriving DecidableEq, Repr

/-- The room_joined branch of handleMessage (source lines 518-524):
currentRoom is replaced by the room of the message, every member of the
room is written into the users map (no prior entry is removed), and a
room_joined event is emitted. -/
def handleRoomJoined (users : UserMap) (room : CollaborationRoom) :
    CollaborationRoom × UserMap × List BusEvent :=
  (room, room.users.foldl (fun m u => mapSet m u.id u) users, [.room_joined room])

/-- The cursor_update branch of handleMessage (source lines 542-548): only
when the user id is present in the users map is the stored cursor updated
and a cursor_update event emitted; otherwise nothing happens. -/
def handleCursorUpdate (users : UserMap) (userId : String) (cursor : Cursor) :
    UserMap × List BusEvent :=
  match users.lookup userId with
  | some u =>
    (mapSet users userId { u with cursor := some cursor }, [.cursor_update userId cursor])
  | none => (users, [])

/-- The selection_update branch of handleMessage (source lines 550-556),
analogous to the cursor branch. -/
def handleSelectionUpdate (users : UserMap) (userId : String) (selection : Selection) :
    UserMap × List BusEvent :=
  match users.lookup userId with
  | some u =>
    (mapSet users userId { u with selection := some selection },
     [.selection_update userId selection])
  | none => (users, [])

/-- A concrete user record, for concrete scenarios. -/
def sampleUser (uid : String) : CollaborationUser :=
  ⟨uid, "User " ++ uid, uid ++ "@example.com", none, "#ff0000", none, none, 0, .online⟩

/-- Claim C10: a cursor_update or selection_update for a user id absent
from the users map is a complete no-op: the map is unchanged and no event
is emitted. -/
theorem unknown_user_update_noop (users : UserMap) (userId : String)
    (c : Cursor) (s : Selection) (h : users.lookup userId = none) :
    handleCursorUpdate users userId c = (users, []) ∧
    handleSelectionUpdate users userId s = (users, []) := by
  simp [handleCursorUpdate, handleSelectionUpdate, h]

/-- Witness for C10: a map holding only u1 is untouched by updates for the
absent user u9. -/
theorem unknown_user_update_noop_witness :
    ([("u1", sampleUser "u1")] : UserMap).lookup "u9" = none ∧
    (handleCursorUpdate [("u1", sampleUser "u1")] "u9" ⟨1, 2⟩
        = ([("u1", sampleUser "u1")], []) ∧
     handleSelectionUpdate [("u1", sampleUser "u1")] "u9" ⟨0, 3⟩
        = ([("u1", sampleUser "u1")], [])) :=
  ⟨by decide,
   unknown_user_update_noop [("u1", sampleUser "u1")] "u9" ⟨1, 2⟩ ⟨0, 3⟩ (by decide)⟩

/-- A room carrying exactly three members u1, u2, u3. -/
def room3 : CollaborationRoom :=
  ⟨"r1", "Room 1", none, [sampleUser "u1", sampleUser "u2", sampleUser "u3"], 0, 0,
   ⟨[], [], true⟩⟩

/-- Claim C7, counterexample: when the presence table already holds a user
u4 who is not a member of the joined room, receipt of room_joined for
room3 leaves u4 in the table, so the table does not contain exactly the
three members of the message. -/
theorem room_joined_counterexample :
    (handleRoomJoined [("u4", sampleUser "u4")] room3).2.1.map Prod.fst
      = ["u4", "u1", "u2", "u3"] ∧
    "u4" ∉ room3.users.map CollaborationUser.id := by
  decide

/-- Claim C7, amended: when the presence table is empty before the
room_joined message arrives (fresh session or after leaveRoom cleared
it), the resulting table contains exactly the three members of the
message, in order, the current room becomes the room of the message, and
a room_joined event is emitted. -/
theorem room_joined_seeds_presence (u1 u2 u3 : CollaborationUser)
    (room : CollaborationRoom) (hu : room.users = [u1, u2, u3])
    (h12 : u1.id ≠ u2.id) (h13 : u1.id ≠ u3.id) (h23 : u2.id ≠ u3.id) :
    handleRoomJoined [] room
      = (room, [(u1.id, u1), (u2.id, u2), (u3.id, u3)], [.room_joined room]) := by
  simp [handleRoomJoined, hu, mapSet, h12, h13, h23]

/-- Witness for the amended C7 at room3 and its three members. -/
theorem room_joined_seeds_presence_witness :
    room3.users = [sampleUser "u1", sampleUser "u2", sampleUser "u3"] ∧
    (sampleUser "u1").id ≠ (sampleUser "u2").id ∧
    (sampleUser "u1").id ≠ (sampleUser "u3").id ∧
    (sampleUser "u2").id ≠ (sampleUser "u3").id ∧
    handleRoomJoined [] room3
      = (room3,
         [((sampleUser "u1").id, sampleUser "u1"),
          ((sampleUser "u2").id, sampleUser "u2"),
          ((sampleUser "u3").id, sampleUser "u3")],
         [.room_joined room3]) :=
  ⟨rfl, by decide, by decide, by decide,
   room_joined_seeds_presence (sampleUser "u1") (sampleUser "u2") (sampleUser "u3") room3
     rfl (by decide) (by decide) (by decide)⟩

/-- A subscriber registered on the event bus: invoking it either returns
normally or throws the recorded error. The id identifies the handler in
the invocation trace. -/
structure EmitHandler where
  id : Nat
  throws : Option String
deriving DecidableEq, Repr

/-- emit (source lines 599-604): the listeners registered for the event are
invoked in order via forEach with no per-handler catch, so a callback
that throws aborts the iteration and its exception escapes emit. The
result records the ids of the handlers that were invoked, in order, and
the escaping exception, if any. -/
def emitRun : List EmitHandler → List Nat × Option String
  | [] => ([], none)
  | h :: t =>
    match h.throws with
    | some e => ([h.id], some e)
    | none =>
      let r := emitRun t
      (h.id :: r.1, r.2)

/-- Claim C5: emit has no per-handler catch. At the failing input — three
subscribers of which the second throws — only handlers 1 and 2 are
invoked, handler 3 never runs, and the exception escapes to the caller of
emit, although the claim says all subscribers run and publish never
raises. -/
theorem emit_stops_on_throwing_handler :
    emitRun [⟨1, none⟩, ⟨2, some "boom"⟩, ⟨3, none⟩] = ([1, 2], some "boom") ∧
    3 ∉ (emitRun [⟨1, none⟩, ⟨2, some "boom"⟩, ⟨3, none⟩]).1 ∧
    (emitRun [⟨1, none⟩, ⟨2, some "boom"⟩, ⟨3, none⟩]).2 ≠ none := by
  decide

/-- The draft passed to sendEdit: a CollaborationEdit without id, userId
and timestamp (source line 294). -/
structure CollaborationEditDraft where
  type : EditType
  position : Int
  content : String
  length : Option Int
deriving DecidableEq, Repr

/-- sendEdit (source lines 294-311): with a current user and a current room
set, the draft is completed with a fresh id, the user id and the current
timestamp, appended to the edit log unconditionally, sent over the socket
and emitted as an edit event; with no current user or room the call is a
silent no-op. The source performs no validation of position or length and
defines no ValidationError anywhere in the file. -/
def sendEdit (currentUser : Option CollaborationUser)
    (currentRoom : Option CollaborationRoom) (edits : List CollaborationEdit)
    (draft : CollaborationEditDraft) (newId : String) (now : Nat) :
    List CollaborationEdit × List BusEvent :=
  match currentUser, currentRoom with
  | some u, some _ =>
    let fullEdit : CollaborationEdit :=
      ⟨newId, draft.type, draft.position, draft.content, draft.length, u.id, now⟩
    (edits ++ [fullEdit], [.edit fullEdit])
  | _, _ => (edits, [])

/-- Claim C4: sendEdit validates nothing. At the failing inputs — an insert
at position -1 into an empty log, and a delete of length 99 against the
four-character document of the session — the edit is appended (the log
grows from 0 to 1 entries) and no failure of any kind is reported,
although the claim says the call must fail with a ValidationError and
leave the log unchanged. -/
theorem sendEdit_appends_malformed :
    (sendEdit (some (sampleUser "u1")) (some room3) [] ⟨.insert, -1, "A", none⟩
        "e1" 10).1.length = 1 ∧
    (sendEdit (some (sampleUser "u1")) (some room3) [] ⟨.insert, -1, "A", none⟩
        "e1" 10).1.map CollaborationEdit.position = [-1] ∧
    (sendEdit (some (sampleUser "u1")) (some room3) [] ⟨.delete, 0, "", some 99⟩
        "e2" 11).1.length = 1 := by
  decide

/-- Kinds of background timers the manager creates. -/
inductive TimerKind
  | heartbeat
  | reconnect
deriving DecidableEq, Repr

/-- A timer registered with the runtime: handle, kind and delay in
milliseconds. -/
structure TimerRec where
  id : Nat
  kind : TimerKind
  delay : Nat
deriving DecidableEq, Repr

/-- Connection-lifecycle state of CollaborationManager: reconnectAttempts
(source line 66), heartbeatInterval (source line 68), the websocket
(source line 58), together with runtime bookkeeping — activeTimers are
the timers created by setInterval/setTimeout and not yet cleared (the
runtime can still fire them), nextTimerId allocates handles, and
scheduledReconnectDelays records, in order, the delay passed to
setTimeout by each reconnect call. -/
structure TransportState where
  reconnectAttempts : Nat
  heartbeatInterval : Option Nat
  websocketOpen : Bool
  activeTimers : List TimerRec
  nextTimerId : Nat
  scheduledReconnectDelays : List Nat
deriving DecidableEq, Repr

/-- maxReconnectAttempts (source line 67). -/
def maxReconnectAttempts : Nat := 5

/-- setInterval/setTimeout: allocate a handle and register an active
timer. -/
def setTimer (s : TransportState) (k : TimerKind) (d : Nat) :
    TransportState × Nat :=
  ({ s with
      activeTimers := s.activeTimers ++ [⟨s.nextTimerId, k, d⟩],
      nextTimerId := s.nextTimerId + 1 },
   s.nextTimerId)

/-- startHeartbeat (source lines 126-132): setInterval with a 30000 ms
period, handle stored in heartbeatInterval. -/
def startHeartbeat (s : TransportState) : TransportState :=
  let r := setTimer s .heartbeat 30000
  { r.1 with heartbeatInterval := some r.2 }

/-- stopHeartbeat (source lines 134-139): clearInterval on the stored
handle, if any, and reset the field. -/
def stopHeartbeat (s : TransportState) : TransportState :=
  match s.heartbeatInterval with
  | some i =>
    { s with
        activeTimers := s.activeTimers.filter (fun t => t.id != i),
        heartbeatInterval := none }
  | none => s

/-- reconnect (source lines 115-124): increment the attempt counter,
compute delay = min(1000 * 2 ^ attempts, 30000) and schedule the next
connect via setTimeout. The setTimeout handle is discarded: the source
stores it in no field, so nothing can ever clear it. -/
def reconnect (s : TransportState) : TransportState :=
  let a := s.reconnectAttempts + 1
  let d := min (1000 * 2 ^ a) 30000
  (setTimer
    { s with
        reconnectAttempts := a,
        scheduledReconnectDelays := s.scheduledReconnectDelays ++ [d] }
    .reconnect d).1

/-- The onclose handler for a close that was not clean (source lines
93-101): stop the heartbeat, then reconnect only while fewer than
maxReconnectAttempts attempts have been made. -/
def onUncleanClose (s : TransportState) : TransportState :=
  let s' := stopHeartbeat s
  if s'.reconnectAttempts < maxReconnectAttempts then reconnect s' else s'

/-- disconnect (source lines 141-148): close the websocket and stop the
heartbeat. Pending reconnect timeouts are untouched — no handle to them
exists anywhere in the state. -/
def disconnect (s : TransportState) : TransportState :=
  stopHeartbeat { s with websocketOpen := false }

/-- destroy (source lines 612-618): disconnect, then clear listeners,
users, messages and edits (those collections are modelled separately and
play no role in the timer claims). -/
def destroy (s : TransportState) : TransportState :=
  disconnect s

/-- The state right after a successful connect: websocket open, heartbeat
started (source lines 82-87), no reconnect attempts yet. -/
def connectedState : TransportState :=
  startHeartbeat ⟨0, none, true, [], 0, []⟩

/-- Claim C6: five consecutive unclean closes starting from the connected
state schedule reconnects with delays 2000, 4000, 8000, 16000, 30000 ms —
the source formula min(1000 * 2 ^ attempt, 30000) with the counter
incremented before use — which are strictly increasing and never exceed
the 30000 ms cap; after the fifth attempt the counter equals
maxReconnectAttempts and a further unclean close changes nothing: no
sixth retry is ever issued. -/
theorem reconnect_backoff_bounds :
    (onUncleanClose^[5] connectedState).scheduledReconnectDelays
      = [2000, 4000, 8000, 16000, 30000] ∧
    List.Pairwise (· < ·) (onUncleanClose^[5] connectedState).scheduledReconnectDelays ∧
    (∀ d ∈ (onUncleanClose^[5] connectedState).scheduledReconnectDelays, d ≤ 30000) ∧
    (onUncleanClose^[5] connectedState).reconnectAttempts = maxReconnectAttempts ∧
    onUncleanClose (onUncleanClose^[5] connectedState) = onUncleanClose^[5] connectedState := by
  decide

/-- The state after an unclean close scheduled a reconnect and the next
connect attempt restarted the heartbeat: one pending reconnect timer and
one live heartbeat timer. -/
def sAfterFailure : TransportState :=
  startHeartbeat (onUncleanClose connectedState)

/-- Claim C8: destroy stops the heartbeat timer but cannot cancel a pending
reconnect timer, whose setTimeout handle the source never stored. At the
failing input sAfterFailure — one pending reconnect timer and one
heartbeat timer — destroy removes the heartbeat yet leaves the reconnect
timer active, so a background timer survives destroy and can fire,
although the claim says none remains. -/
theorem destroy_leaves_reconnect_timer :
    sAfterFailure.activeTimers.map TimerRec.kind = [.reconnect, .heartbeat] ∧
    (destroy sAfterFailure).heartbeatInterval = none ∧
    (destroy sAfterFailure).activeTimers.map TimerRec.kind = [.reconnect] ∧
    (destroy sAfterFailure).activeTimers ≠ [] := by
  decide
